import Mathlib

/-!
Shallow embedding of the credential lifecycle and access-control core of the
Credential Issuance API (Python source: `models.py`, `auth.py`, `exceptions.py`,
`main.py`, `blockchain.py`).  Database state is passed explicitly as a `DB`
value; endpoint handlers become total functions returning `Except DCPError`
results; background tasks scheduled by a handler are returned as data.
Identifier generation (UUIDs, public credential ids, clock time) is
non-deterministic in the source and is passed in as explicit parameters.
-/

namespace CredentialAPI

/-! ## Enumerations (`models.py`) -/

/-- `UserRole` from `models.py`. -/
inductive UserRole
  | super_admin
  | issuer_admin
  | verifier
  | recipient
deriving DecidableEq

/-- `CredentialStatus` from `models.py`. -/
inductive CredentialStatus
  | draft
  | issued
  | revoked
  | expired
deriving DecidableEq

/-- `TemplateStatus` from `models.py`. -/
inductive TemplateStatus
  | draft
  | active
  | archived
deriving DecidableEq

/-! ## JSON values for `credential_data` dictionaries -/

/-- A JSON scalar as stored in the `Dict[str, Any]` credential-data payloads
that reach `create_credential_hash`: a string, an integer, or `None`/null. -/
inductive JsonVal
  | null
  | str (s : String)
  | num (n : Int)
deriving DecidableEq

/-- A Python dict of JSON scalars, as an insertion-ordered association list. -/
abbrev JsonDict := List (String × JsonVal)

/-- `dict.get(key)`: the value at the first matching key, or null when the key
is absent (Python `get` returns `None` then). -/
def JsonDict.get (d : JsonDict) (k : String) : JsonVal :=
  match d.find? (fun p => p.1 == k) with
  | some p => p.2
  | none => JsonVal.null

/-! ## Records (`models.py`) -/

/-- `User` from `models.py`, restricted to the columns the core reads. -/
structure User where
  id : Nat
  email : String
  first_name : String
  last_name : String
  role : UserRole
  is_active : Bool
deriving DecidableEq

/-- `OrganizationMember` from `models.py`. -/
structure OrganizationMember where
  organization_id : Nat
  user_id : Nat
  role : String
deriving DecidableEq

/-- `CredentialTemplate` from `models.py`, restricted to the columns the
credential endpoints read. -/
structure CredentialTemplate where
  id : Nat
  name : String
  description : Option String
  organization_id : Nat
  status : TemplateStatus
  design_data : String
deriving DecidableEq

/-- `Credential` from `models.py`, restricted to the columns the credential
endpoints read or write. -/
structure Credential where
  id : Nat
  credential_id : String
  title : String
  description : Option String
  organization_id : Nat
  template_id : Nat
  issuer_id : Nat
  recipient_id : Nat
  recipient_email : String
  recipient_name : String
  credential_data : JsonDict
  status : CredentialStatus
  issued_at : Option Nat
  expires_at : Option Nat
  revoked_at : Option Nat
  revocation_reason : Option String
  verification_url : Option String
  blockchain_hash : Option String
  blockchain_tx_hash : Option String
  is_public : Bool
  updated_at : Option Nat
deriving DecidableEq

/-- The persisted store the handlers query and mutate: the `users`,
`organization_members`, `credential_templates` and `credentials` tables. -/
structure DB where
  users : List User
  members : List OrganizationMember
  templates : List CredentialTemplate
  credentials : List Credential
deriving DecidableEq

/-- Commit of a mutated ORM `Credential` row: replace the row with the same
primary key. -/
def DB.updateCredential (db : DB) (c : Credential) : DB :=
  { db with credentials := db.credentials.map (fun x => if x.id == c.id then c else x) }

/-! ## Exceptions (`exceptions.py`) -/

/-- The `DCPException` subclasses raised by the credential endpoints
(`exceptions.py`).  `conflictError` is HTTP 409, `credentialError` HTTP 400. -/
inductive DCPError
  | validationError (msg : String)
  | authenticationError (msg : String)
  | authorizationError (msg : String)
  | notFoundError (msg : String)
  | conflictError (msg : String)
  | credentialError (msg : String)
  | externalServiceError (msg : String)
deriving DecidableEq

/-! ## Authorization (`auth.py`) -/

/-- `check_organization_access` from `auth.py` (lines 131-145). -/
def check_organization_access (db : DB) (user : User) (organization_id : Nat) : Bool :=
  if user.role == UserRole.super_admin then
    true
  else
    (db.members.find? (fun m =>
      m.user_id == user.id && m.organization_id == organization_id)).isSome

/-- `check_credential_access` from `auth.py` (lines 148-176).  The `action`
argument is the Python string parameter (default `"read"`). -/
def check_credential_access (db : DB) (user : User) (credential_id : Nat)
    (action : String) : Bool :=
  match db.credentials.find? (fun c => c.id == credential_id) with
  | none => false
  | some credential =>
    if user.role == UserRole.super_admin then
      true
    else if credential.recipient_id == user.id then
      true
    else if credential.issuer_id == user.id then
      true
    else if action == "write" || action == "delete" then
      check_organization_access db user credential.organization_id
    else if credential.is_public then
      true
    else
      check_organization_access db user credential.organization_id

/-- `PermissionChecker.can_issue_credentials` from `auth.py` (lines 186-190). -/
def can_issue_credentials (db : DB) (user : User) (organization_id : Nat) : Bool :=
  if user.role == UserRole.super_admin || user.role == UserRole.issuer_admin then
    check_organization_access db user organization_id
  else
    false

/-! ## Credential endpoints (`main.py`)

The FastAPI handlers become functions from an explicit `DB` plus their request
arguments to `Except DCPError` results; a successful mutation returns the
committed store.  `BackgroundTasks.add_task` calls are returned as a list of
`BackgroundTask` values. -/

/-- A task scheduled with `background_tasks.add_task` in `main.py`. -/
inductive BackgroundTask
  | generateCredentialFiles (credential_id : Nat) (design_data : String)
  | sendCredentialNotification (credential_id : Nat)
deriving DecidableEq

/-- `CredentialUpdateRequest` from `main.py`: every field optional, absent
fields untouched. -/
structure CredentialUpdateRequest where
  title : Option String
  description : Option String
  credential_data : Option JsonDict
  expires_at : Option Nat
  is_public : Option Bool
deriving DecidableEq

/-- An entry of `BulkCredentialCreateRequest.credentials` in `main.py`: a raw
`Dict[str, Any]`, each key optionally present. `expires_at` distinguishes an
absent key (outer `none`) from a present null (inner `none`). -/
structure BulkEntry where
  title : Option String
  description : Option String
  recipient_email : Option String
  recipient_name : Option String
  credential_data : Option JsonDict
  expires_at : Option (Option Nat)
  is_public : Option Bool
deriving DecidableEq

/-- `BulkCredentialCreateRequest` from `main.py`. -/
structure BulkCredentialCreateRequest where
  template_id : Nat
  credentials : List BulkEntry
  default_expires_at : Option Nat
  default_is_public : Bool
deriving DecidableEq

/-- The characters Python `str.split()` (no argument) splits on: space and
the five ASCII control whitespace characters (tab through carriage return). -/
def isPyWs (c : Char) : Bool := c == ' ' || (9 ≤ c.toNat && c.toNat ≤ 13)

/-- Accumulator pass for `splitWs`: `cur` holds the current word reversed. -/
def splitWsAux : List Char → List Char → List String
  | cur, [] => if cur = [] then [] else [⟨cur.reverse⟩]
  | cur, c :: rest =>
    if isPyWs c then
      if cur = [] then splitWsAux [] rest
      else ⟨cur.reverse⟩ :: splitWsAux [] rest
    else splitWsAux (c :: cur) rest

/-- Python `str.split()` with no argument: split on whitespace runs, dropping
empty pieces. -/
def splitWs (s : String) : List String := splitWsAux [] s.data

/-- `generate_verification_url` from `utils.py` (default base URL). -/
def generate_verification_url (credential_id : String) : String :=
  "https://verify.digitalcredentials.com/verify/" ++ credential_id

/-- The recipient-resolution step of the bulk loop (`main.py` lines 230-246):
look the recipient up by email and lazily create a `User` row with role
RECIPIENT when absent.  The bulk loop guards the name split on the resulting
LIST (`name_parts[0] if name_parts else "Unknown"`), so it is total;
`new_user_id` stands for the fresh UUID the database would assign. -/
def resolveRecipient (db : DB) (email name : String) (new_user_id : Nat) :
    DB × Nat :=
  match db.users.find? (fun u => u.email == email) with
  | some r => (db, r.id)
  | none =>
    let name_parts := splitWs name
    let recipient : User :=
      { id := new_user_id
        email := email
        first_name := name_parts.headD "Unknown"
        last_name := if name_parts.length > 1 then
            String.intercalate " " name_parts.tail else ""
        role := UserRole.recipient
        is_active := true }
    ({ db with users := db.users ++ [recipient] }, new_user_id)

/-- The loop body of `create_bulk_credentials` (`main.py` lines 225-270):
entries missing `recipient_email` or `recipient_name` are skipped with
`continue`; the rest create a credential (lazily creating the recipient).
`uid`, `row_id` and `pub_id` supply the fresh identifiers for the k-th created
credential. -/
def bulkLoop (req : BulkCredentialCreateRequest) (template : CredentialTemplate)
    (current_user : User) (uid row_id : Nat → Nat) (pub_id : Nat → String) :
    DB → Nat → List BulkEntry → DB × List Credential
  | db, _, [] => (db, [])
  | db, k, e :: rest =>
    match e.recipient_email, e.recipient_name with
    | some em, some nm =>
      let (db1, recipient_id) := resolveRecipient db em nm (uid k)
      let credential : Credential :=
        { id := row_id k
          credential_id := pub_id k
          title := e.title.getD template.name
          description := match e.description with
            | some d => some d
            | none => template.description
          organization_id := template.organization_id
          template_id := template.id
          issuer_id := current_user.id
          recipient_id := recipient_id
          recipient_email := em
          recipient_name := nm
          credential_data := e.credential_data.getD []
          status := CredentialStatus.draft
          issued_at := none
          expires_at := e.expires_at.getD req.default_expires_at
          revoked_at := none
          revocation_reason := none
          verification_url := some (generate_verification_url (pub_id k))
          blockchain_hash := none
          blockchain_tx_hash := none
          is_public := e.is_public.getD req.default_is_public
          updated_at := none }
      let db2 := { db1 with credentials := db1.credentials ++ [credential] }
      let (db3, rest_created) :=
        bulkLoop req template current_user uid row_id pub_id db2 (k + 1) rest
      (db3, credential :: rest_created)
    | _, _ => bulkLoop req template current_user uid row_id pub_id db k rest

/-- `create_bulk_credentials` from `main.py` (lines 200-282).  The response is
the list of created credentials only; skipped entries leave no trace in it. -/
def create_bulk_credentials (db : DB) (request : BulkCredentialCreateRequest)
    (current_user : User) (uid row_id : Nat → Nat) (pub_id : Nat → String) :
    Except DCPError (DB × List Credential) :=
  match db.templates.find? (fun t => t.id == request.template_id) with
  | none => .error (.notFoundError "Template not found")
  | some template =>
    if ¬ can_issue_credentials db current_user template.organization_id then
      .error (.authorizationError
        "You don't have permission to issue credentials for this organization")
    else
      .ok (bulkLoop request template current_user uid row_id pub_id db 0
             request.credentials)

/-- The field-merge step of `update_credential` (`main.py` lines 377-388):
each provided request field overwrites the row and `updated_at` is set.  No
status precondition is checked anywhere in the handler. -/
def applyUpdate (credential : Credential) (request : CredentialUpdateRequest)
    (now : Nat) : Credential :=
  { credential with
    title := request.title.getD credential.title
    description := match request.description with
      | some d => some d
      | none => credential.description
    credential_data := request.credential_data.getD credential.credential_data
    expires_at := match request.expires_at with
      | some t => some t
      | none => credential.expires_at
    is_public := request.is_public.getD credential.is_public
    updated_at := some now }

/-- `update_credential` from `main.py` (lines 354-406) continued: the handler
around `applyUpdate`, scheduling file regeneration when `credential_data` or
`title` was provided and the template still exists. -/
def update_credential (db : DB) (credential_id : String)
    (request : CredentialUpdateRequest) (current_user : User) (now : Nat) :
    Except DCPError (DB × Credential × List BackgroundTask) :=
  match db.credentials.find? (fun c => c.credential_id == credential_id) with
  | none => .error (.notFoundError "Credential not found")
  | some credential =>
    if ¬ check_credential_access db current_user credential.id "write" then
      .error (.authorizationError "Access denied to modify this credential")
    else
      let credential' := applyUpdate credential request now
      let tasks :=
        if request.credential_data.isSome || request.title.isSome then
          match db.templates.find? (fun t => t.id == credential.template_id) with
          | some template =>
            [BackgroundTask.generateCredentialFiles credential.id template.design_data]
          | none => []
        else []
      .ok (db.updateCredential credential', credential', tasks)

/-- `issue_credential` from `main.py` (lines 409-445): look the credential up,
check write access, require status DRAFT (else `CredentialError`), set status
ISSUED and `issued_at`, commit, and schedule the recipient notification. -/
def issue_credential (db : DB) (credential_id : String) (current_user : User)
    (now : Nat) : Except DCPError (DB × List BackgroundTask) :=
  match db.credentials.find? (fun c => c.credential_id == credential_id) with
  | none => .error (.notFoundError "Credential not found")
  | some credential =>
    if ¬ check_credential_access db current_user credential.id "write" then
      .error (.authorizationError "Access denied to issue this credential")
    else if credential.status ≠ CredentialStatus.draft then
      .error (.credentialError "Only draft credentials can be issued")
    else
      let credential' := { credential with
        status := CredentialStatus.issued
        issued_at := some now }
      .ok (db.updateCredential credential',
           [BackgroundTask.sendCredentialNotification credential.id])

/-- `revoke_credential` from `main.py` (lines 448-479): look the credential up,
check write access, reject only an already-REVOKED credential (else any status
passes), set status REVOKED, `revoked_at` and the reason, and commit. -/
def revoke_credential (db : DB) (credential_id : String) (reason : String)
    (current_user : User) (now : Nat) : Except DCPError DB :=
  match db.credentials.find? (fun c => c.credential_id == credential_id) with
  | none => .error (.notFoundError "Credential not found")
  | some credential =>
    if ¬ check_credential_access db current_user credential.id "write" then
      .error (.authorizationError "Access denied to revoke this credential")
    else if credential.status == CredentialStatus.revoked then
      .error (.credentialError "Credential is already revoked")
    else
      .ok (db.updateCredential { credential with
        status := CredentialStatus.revoked
        revoked_at := some now
        revocation_reason := some reason })

/-! ## SHA-256 (`hashlib.sha256`)

An executable SHA-256 over byte lists, words as `Nat` reduced mod `2 ^ 32`. -/

/-- Truncate to a 32-bit word. -/
def w32 (x : Nat) : Nat := x % 4294967296

/-- 32-bit rotate right. -/
def rotr (n x : Nat) : Nat := w32 (x / 2 ^ n + x % 2 ^ n * 2 ^ (32 - n))

/-- Logical shift right. -/
def shr (n x : Nat) : Nat := x / 2 ^ n

/-- SHA-256 Σ0. -/
def bigSigma0 (x : Nat) : Nat := Nat.xor (rotr 2 x) (Nat.xor (rotr 13 x) (rotr 22 x))

/-- SHA-256 Σ1. -/
def bigSigma1 (x : Nat) : Nat := Nat.xor (rotr 6 x) (Nat.xor (rotr 11 x) (rotr 25 x))

/-- SHA-256 σ0. -/
def smallSigma0 (x : Nat) : Nat := Nat.xor (rotr 7 x) (Nat.xor (rotr 18 x) (shr 3 x))

/-- SHA-256 σ1. -/
def smallSigma1 (x : Nat) : Nat := Nat.xor (rotr 17 x) (Nat.xor (rotr 19 x) (shr 10 x))

/-- SHA-256 choice function. -/
def chFn (x y z : Nat) : Nat := Nat.xor (Nat.land x y) (Nat.land (Nat.xor x 4294967295) z)

/-- SHA-256 majority function. -/
def majFn (x y z : Nat) : Nat :=
  Nat.xor (Nat.land x y) (Nat.xor (Nat.land x z) (Nat.land y z))

/-- The 64 SHA-256 round constants (FIPS 180-4), written in decimal. -/
def sha256K : List Nat :=
  [1116352408, 1899447441, 3049323471, 3921009573, 961987163,
   1508970993, 2453635748, 2870763221, 3624381080, 310598401,
   607225278, 1426881987, 1925078388, 2162078206, 2614888103,
   3248222580, 3835390401, 4022224774, 264347078, 604807628,
   770255983, 1249150122, 1555081692, 1996064986, 2554220882,
   2821834349, 2952996808, 3210313671, 3336571891, 3584528711,
   113926993, 338241895, 666307205, 773529912, 1294757372,
   1396182291, 1695183700, 1986661051, 2177026350, 2456956037,
   2730485921, 2820302411, 3259730800, 3345764771, 3516065817,
   3600352804, 4094571909, 275423344, 430227734, 506948616,
   659060556, 883997877, 958139571, 1322822218, 1537002063,
   1747873779, 1955562222, 2024104815, 2227730452, 2361852424,
   2428436474, 2756734187, 3204031479, 3329325298]

/-- The eight 32-bit words of a SHA-256 hash state. -/
structure Sha256State where
  a : Nat
  b : Nat
  c : Nat
  d : Nat
  e : Nat
  f : Nat
  g : Nat
  h : Nat
deriving DecidableEq

/-- The SHA-256 initial hash value (FIPS 180-4), written in decimal. -/
def sha256Init : Sha256State :=
  ⟨1779033703, 3144134277, 1013904242, 2773480762,
   1359893119, 2600822924, 528734635, 1541459225⟩

/-- Group bytes into 32-bit big-endian words. -/
def bytesToWords : List Nat → List Nat
  | b0 :: b1 :: b2 :: b3 :: rest =>
    (b0 * 16777216 + b1 * 65536 + b2 * 256 + b3) :: bytesToWords rest
  | _ => []

/-- Extend the 16 chunk words to the 64-entry message schedule. -/
def msgSchedule (ws : List Nat) : List Nat :=
  (List.range 48).foldl
    (fun acc _ =>
      let n := acc.length
      acc ++ [w32 (smallSigma1 (acc.getD (n - 2) 0) + acc.getD (n - 7) 0 +
                   smallSigma0 (acc.getD (n - 15) 0) + acc.getD (n - 16) 0)])
    ws

/-- One SHA-256 compression round, consuming a round constant paired with a
schedule word. -/
def sha256Round (s : Sha256State) (kw : Nat × Nat) : Sha256State :=
  let t1 := w32 (s.h + bigSigma1 s.e + chFn s.e s.f s.g + kw.1 + kw.2)
  let t2 := w32 (bigSigma0 s.a + majFn s.a s.b s.c)
  ⟨w32 (t1 + t2), s.a, s.b, s.c, w32 (s.d + t1), s.e, s.f, s.g⟩

/-- Process one 64-byte chunk. -/
def sha256Chunk (s : Sha256State) (chunk : List Nat) : Sha256State :=
  let t := (sha256K.zip (msgSchedule (bytesToWords chunk))).foldl sha256Round s
  ⟨w32 (s.a + t.a), w32 (s.b + t.b), w32 (s.c + t.c), w32 (s.d + t.d),
   w32 (s.e + t.e), w32 (s.f + t.f), w32 (s.g + t.g), w32 (s.h + t.h)⟩

/-- A natural number as 8 big-endian bytes. -/
def be8 (n : Nat) : List Nat :=
  [n / 2 ^ 56 % 256, n / 2 ^ 48 % 256, n / 2 ^ 40 % 256, n / 2 ^ 32 % 256,
   n / 2 ^ 24 % 256, n / 2 ^ 16 % 256, n / 2 ^ 8 % 256, n % 256]

/-- A 32-bit word as 4 big-endian bytes. -/
def be4 (n : Nat) : List Nat :=
  [n / 2 ^ 24 % 256, n / 2 ^ 16 % 256, n / 2 ^ 8 % 256, n % 256]

/-- SHA-256 padding: a 0x80 byte, zeros, and the 64-bit bit length, to a
multiple of 64 bytes. -/
def padMessage (msg : List Nat) : List Nat :=
  msg ++ 128 :: List.replicate ((119 - msg.length % 64) % 64) 0 ++
    be8 (8 * msg.length)

/-- Split a byte list into 64-byte chunks. -/
def chunks64 : List Nat → List (List Nat)
  | [] => []
  | x :: xs => (x :: xs.take 63) :: chunks64 (xs.drop 63)
termination_by l => l.length
decreasing_by simp [List.length_drop]; omega

/-- SHA-256 of a byte list, as the final eight-word state. -/
def sha256Final (msg : List Nat) : Sha256State :=
  (chunks64 (padMessage msg)).foldl sha256Chunk sha256Init

/-- SHA-256 of a byte list, as 32 digest bytes. -/
def sha256Bytes (msg : List Nat) : List Nat :=
  let s := sha256Final msg
  be4 s.a ++ be4 s.b ++ be4 s.c ++ be4 s.d ++ be4 s.e ++ be4 s.f ++
    be4 s.g ++ be4 s.h

/-- The sixteen lowercase hex digits: the decimal digits followed by the six
lowercase letters. -/
def hexChars : List Char :=
  (List.range 10).map (fun n => Char.ofNat (48 + n)) ++ ['a', 'b', 'c', 'd', 'e', 'f']

/-- The lowercase hex digit of `n % 16`. -/
def hexDigit (n : Nat) : Char := hexChars.getD (n % 16) '0'

/-- A byte as two lowercase hex digits. -/
def byteHex (b : Nat) : List Char := [hexDigit (b / 16), hexDigit b]

/-- Python `hashlib.sha256(...).hexdigest()`: the digest as a lowercase hex
string. -/
def sha256hex (msg : List Nat) : String :=
  ⟨(sha256Bytes msg).foldr (fun b acc => byteHex b ++ acc) []⟩

/-! ## UTF-8 and JSON serialization (`json.dumps`) -/

/-- UTF-8 encoding of one Unicode scalar value. -/
def utf8Bytes (c : Nat) : List Nat :=
  if c < 128 then [c]
  else if c < 2048 then [192 + c / 64, 128 + c % 64]
  else if c < 65536 then [224 + c / 4096, 128 + c / 64 % 64, 128 + c % 64]
  else [240 + c / 262144, 128 + c / 4096 % 64, 128 + c / 64 % 64, 128 + c % 64]

/-- Python `str.encode('utf-8')` as a byte list. -/
def strBytes (s : String) : List Nat :=
  s.data.foldr (fun ch acc => utf8Bytes ch.toNat ++ acc) []

/-- Four hex digits of a 16-bit code unit (for `\uXXXX` escapes). -/
def hex4 (n : Nat) : List Char :=
  [hexDigit (n / 4096), hexDigit (n / 256), hexDigit (n / 16), hexDigit n]

/-- `json.dumps` escaping of one character (default `ensure_ascii=True`):
quote/backslash escaped, the named control escapes, `\uXXXX` for other
control or non-ASCII characters, surrogate pairs beyond the BMP. -/
def jsonEscapeChar (c : Char) : List Char :=
  let n := c.toNat
  if c = '"' then ['\\', '"']
  else if c = '\\' then ['\\', '\\']
  else if c = '\n' then ['\\', 'n']
  else if c = '\t' then ['\\', 't']
  else if c = '\r' then ['\\', 'r']
  else if n = 8 then ['\\', 'b']
  else if n = 12 then ['\\', 'f']
  else if n < 32 then '\\' :: 'u' :: hex4 n
  else if n < 127 then [c]
  else if n < 65536 then '\\' :: 'u' :: hex4 n
  else
    ('\\' :: 'u' :: hex4 (55296 + (n - 65536) / 1024)) ++
    ('\\' :: 'u' :: hex4 (56320 + (n - 65536) % 1024))

/-- A JSON string literal with its quotes. -/
def jsonString (s : String) : String :=
  ⟨'"' :: s.data.foldr (fun ch acc => jsonEscapeChar ch ++ acc) ['"']⟩

/-- `json.dumps` of one scalar value. -/
def jsonVal : JsonVal → String
  | JsonVal.null => "null"
  | JsonVal.str s => jsonString s
  | JsonVal.num n => toString n

/-! ## Content hash and anchor verification (`blockchain.py`) -/

/-- The fixed `hash_data` field snapshot that `create_credential_hash` builds
(`blockchain.py` lines 178-187): each field is `credential_data.get(key)`. -/
structure HashData where
  credential_id : JsonVal
  title : JsonVal
  recipient_name : JsonVal
  recipient_email : JsonVal
  issuer_id : JsonVal
  organization_id : JsonVal
  issued_at : JsonVal
  expires_at : JsonVal
deriving DecidableEq

/-- Extraction of the fixed field set from the input dictionary. -/
def extractHashData (credential_data : JsonDict) : HashData :=
  { credential_id := credential_data.get "credential_id"
    title := credential_data.get "title"
    recipient_name := credential_data.get "recipient_name"
    recipient_email := credential_data.get "recipient_email"
    issuer_id := credential_data.get "issuer_id"
    organization_id := credential_data.get "organization_id"
    issued_at := credential_data.get "issued_at"
    expires_at := credential_data.get "expires_at" }

/-- `json.dumps(hash_data, sort_keys=True, separators=(',', ':'))`: the eight
fixed keys in sorted order, no whitespace. -/
def serializeHashData (h : HashData) : String :=
  "\x7b\"credential_id\":" ++ jsonVal h.credential_id ++
  ",\"expires_at\":" ++ jsonVal h.expires_at ++
  ",\"issued_at\":" ++ jsonVal h.issued_at ++
  ",\"issuer_id\":" ++ jsonVal h.issuer_id ++
  ",\"organization_id\":" ++ jsonVal h.organization_id ++
  ",\"recipient_email\":" ++ jsonVal h.recipient_email ++
  ",\"recipient_name\":" ++ jsonVal h.recipient_name ++
  ",\"title\":" ++ jsonVal h.title ++ "\x7d"

/-- `create_credential_hash` from `blockchain.py` (lines 174-193). -/
def create_credential_hash (credential_data : JsonDict) : String :=
  sha256hex (strBytes (serializeHashData (extractHashData credential_data)))

/-- Python `str.lower()` restricted to ASCII case folding, which is all hex
digests exercise. -/
def strLower (s : String) : String := ⟨s.data.map Char.toLower⟩

/-- The `BlockchainVerifier` configuration read from settings
(`blockchain.py` lines 21-32): `w3` exists exactly when `rpc_url` is set. -/
structure BlockchainConfig where
  rpc_url : Option String
  private_key : Option String
  contract_address : Option String
deriving DecidableEq

/-- The external ledger collaborator: the contract's `getCredentialHash` call,
which may return the stored digest or raise. -/
abbrev Ledger : Type := String → Except String String

/-- The dictionary `verify_credential_hash` returns (`blockchain.py` lines
94-145), restricted to the keys the claims touch. -/
structure VerifyHashResult where
  verified : Bool
  stored_hash : Option String
  provided_hash : Option String
  error : Option String
deriving DecidableEq

/-- `BlockchainVerifier.verify_credential_hash` from `blockchain.py` (lines
94-145): unconfigured ⇒ unverified with an error; otherwise query the ledger
for the stored hash and compare case-insensitively (`.lower()` on both). -/
def verify_credential_hash (cfg : BlockchainConfig) (ledger : Ledger)
    (credential_hash credential_id : String) : VerifyHashResult :=
  if cfg.rpc_url.isNone then
    ⟨false, none, none, some "Blockchain not configured"⟩
  else if cfg.contract_address.isNone then
    ⟨false, none, none, some "Contract address not configured"⟩
  else
    match ledger credential_id with
    | .error e => ⟨false, none, none, some e⟩
    | .ok stored_hash =>
      ⟨strLower stored_hash == strLower credential_hash,
       some stored_hash, some credential_hash, none⟩

/-- `verify_credential_hash` threaded through the credential store: the method
performs no writes, so the store passes through untouched. -/
def verify_credential_hash_db (db : DB) (cfg : BlockchainConfig) (ledger : Ledger)
    (credential_hash credential_id : String) : VerifyHashResult × DB :=
  (verify_credential_hash cfg ledger credential_hash credential_id, db)

/-! ## A small concrete world

Concrete rows used by the witnesses and counterexamples: one organization
(id 1), a super admin, an issuer admin who is a member of the organization, a
recipient, one active and one archived template, and one credential in each
lifecycle status. -/

/-- A SUPER_ADMIN user. -/
def adminUser : User :=
  { id := 1, email := "admin@x.com", first_name := "Ada", last_name := "Admin"
    role := UserRole.super_admin, is_active := true }

/-- An ISSUER_ADMIN user, member of organization 1. -/
def issuerUser : User :=
  { id := 2, email := "issuer@x.com", first_name := "Ivy", last_name := "Issuer"
    role := UserRole.issuer_admin, is_active := true }

/-- A RECIPIENT user. -/
def recipUser : User :=
  { id := 3, email := "r@x.com", first_name := "Rae", last_name := "Recipient"
    role := UserRole.recipient, is_active := true }

/-- An ACTIVE template of organization 1. -/
def activeTemplate : CredentialTemplate :=
  { id := 10, name := "Course Certificate", description := some "Default certificate"
    organization_id := 1, status := TemplateStatus.active, design_data := "design-a" }

/-- An ARCHIVED template of organization 1. -/
def archivedTemplate : CredentialTemplate :=
  { id := 11, name := "Old Certificate", description := none
    organization_id := 1, status := TemplateStatus.archived, design_data := "design-b" }

/-- A DRAFT credential issued by `issuerUser` to `recipUser`. -/
def draftCred : Credential :=
  { id := 100, credential_id := "DCP-20240101-AAAA0000", title := "Draft Cred"
    description := none, organization_id := 1, template_id := 10
    issuer_id := 2, recipient_id := 3, recipient_email := "r@x.com"
    recipient_name := "Rae Recipient", credential_data := []
    status := CredentialStatus.draft, issued_at := none, expires_at := none
    revoked_at := none, revocation_reason := none
    verification_url := some "https://verify.digitalcredentials.com/verify/DCP-20240101-AAAA0000"
    blockchain_hash := none, blockchain_tx_hash := none, is_public := true
    updated_at := none }

/-- An ISSUED credential issued by `issuerUser` to `recipUser`. -/
def issuedCred : Credential :=
  { id := 101, credential_id := "DCP-20240101-BBBB0000", title := "Issued Cred"
    description := none, organization_id := 1, template_id := 10
    issuer_id := 2, recipient_id := 3, recipient_email := "r@x.com"
    recipient_name := "Rae Recipient", credential_data := [("grade", JsonVal.str "A")]
    status := CredentialStatus.issued, issued_at := some 1, expires_at := none
    revoked_at := none, revocation_reason := none
    verification_url := some "https://verify.digitalcredentials.com/verify/DCP-20240101-BBBB0000"
    blockchain_hash := none, blockchain_tx_hash := none, is_public := true
    updated_at := none }

/-- A REVOKED credential issued by `issuerUser` to `recipUser`. -/
def revokedCred : Credential :=
  { id := 102, credential_id := "DCP-20240101-CCCC0000", title := "Revoked Cred"
    description := none, organization_id := 1, template_id := 10
    issuer_id := 2, recipient_id := 3, recipient_email := "r@x.com"
    recipient_name := "Rae Recipient", credential_data := []
    status := CredentialStatus.revoked, issued_at := some 1, expires_at := none
    revoked_at := some 2, revocation_reason := some "policy violation"
    verification_url := some "https://verify.digitalcredentials.com/verify/DCP-20240101-CCCC0000"
    blockchain_hash := none, blockchain_tx_hash := none, is_public := true
    updated_at := none }

/-- The sample store. -/
def sampleDB : DB :=
  { users := [adminUser, issuerUser, recipUser]
    members := [{ organization_id := 1, user_id := 2, role := "admin" }]
    templates := [activeTemplate, archivedTemplate]
    credentials := [draftCred, issuedCred, revokedCred] }

/-- An update request changing only the canonical content field
`credential_data`. -/
def contentUpdateReq : CredentialUpdateRequest :=
  { title := none, description := none
    credential_data := some [("grade", JsonVal.str "F")]
    expires_at := none, is_public := none }

/-- A bulk entry with both required keys present. -/
def validEntry : BulkEntry :=
  { title := some "Bulk Cred", description := none
    recipient_email := some "r@x.com", recipient_name := some "Rae Recipient"
    credential_data := none, expires_at := none, is_public := none }

/-- A bulk entry missing `recipient_email`, which the loop skips with
`continue`. -/
def invalidEntry : BulkEntry :=
  { title := some "Broken Cred", description := none
    recipient_email := none, recipient_name := some "No Email"
    credential_data := none, expires_at := none, is_public := none }

/-- A two-entry bulk request against the active template: one invalid entry,
one valid one. -/
def bulkReq : BulkCredentialCreateRequest :=
  { template_id := 10, credentials := [invalidEntry, validEntry]
    default_expires_at := none, default_is_public := true }

/-- The single credential `create_bulk_credentials` builds for `bulkReq`. -/
def bulkCreated : Credential :=
  { id := 700, credential_id := "DCP-20240103-EEEE0000", title := "Bulk Cred"
    description := some "Default certificate", organization_id := 1, template_id := 10
    issuer_id := 2, recipient_id := 3, recipient_email := "r@x.com"
    recipient_name := "Rae Recipient", credential_data := []
    status := CredentialStatus.draft, issued_at := none, expires_at := none
    revoked_at := none, revocation_reason := none
    verification_url := some "https://verify.digitalcredentials.com/verify/DCP-20240103-EEEE0000"
    blockchain_hash := none, blockchain_tx_hash := none, is_public := true
    updated_at := none }

/-- A fully configured `BlockchainVerifier`. -/
def demoCfg : BlockchainConfig :=
  { rpc_url := some "https://polygon-rpc.com"
    private_key := some "k", contract_address := some "0xabc" }

/-- A ledger holding an uppercase digest under every id. -/
def demoLedger : Ledger := fun _ => Except.ok "ABC123"

/-- A credential-data dictionary for the hash determinism witness. -/
def hashDict1 : JsonDict :=
  [("credential_id", JsonVal.str "DCP-1"), ("title", JsonVal.str "T"),
   ("issued_at", JsonVal.num 5)]

/-- `hashDict1` with its entries rotated. -/
def hashDict2 : JsonDict :=
  [("title", JsonVal.str "T"), ("issued_at", JsonVal.num 5),
   ("credential_id", JsonVal.str "DCP-1")]

/-! ## Theorems -/

/-- C1 (counterexample): issuing the non-Draft credential
`DCP-20240101-BBBB0000` is rejected with a `CredentialError` (HTTP 400), not
with a `ConflictError`-class condition (HTTP 409) as the claim states. -/
theorem C1_counterexample :
    issue_credential sampleDB "DCP-20240101-BBBB0000" issuerUser 5 =
      Except.error (DCPError.credentialError "Only draft credentials can be issued") ∧
    ∀ msg, issue_credential sampleDB "DCP-20240101-BBBB0000" issuerUser 5 ≠
      Except.error (DCPError.conflictError msg) := by
  refine ⟨rfl, fun msg h => ?_⟩
  have h2 : (Except.error (DCPError.credentialError "Only draft credentials can be issued") :
      Except DCPError (DB × List BackgroundTask)) =
      Except.error (DCPError.conflictError msg) := h
  exact DCPError.noConfusion (Except.error.inj h2)

/-- C1 (amended): for an authorized caller, `issue_credential` succeeds
exactly when the current status is Draft, in which case it sets status to
Issued and `issued_at` to the current time; a non-Draft credential is rejected
with a `CredentialError` (HTTP 400) and no updated store is produced. -/
theorem C1_issue_requires_draft (db : DB) (cid : String) (user : User) (now : Nat)
    (c : Credential)
    (hfind : db.credentials.find? (fun x => x.credential_id == cid) = some c)
    (hacc : check_credential_access db user c.id "write" = true) :
    (c.status = CredentialStatus.draft →
      issue_credential db cid user now =
        Except.ok (db.updateCredential
          { c with status := CredentialStatus.issued, issued_at := some now },
          [BackgroundTask.sendCredentialNotification c.id])) ∧
    (c.status ≠ CredentialStatus.draft →
      issue_credential db cid user now =
        Except.error (DCPError.credentialError "Only draft credentials can be issued")) := by
  unfold issue_credential
  rw [hfind]
  constructor
  · intro hdraft
    simp [hacc, hdraft]
  · intro hnd
    simp [hacc, hnd]

/-- C1 (witness): issuing the Draft credential `DCP-20240101-AAAA0000` at time
5 succeeds and stores status Issued with `issued_at = 5`. -/
theorem C1_issue_requires_draft_witness :
    issue_credential sampleDB "DCP-20240101-AAAA0000" issuerUser 5 =
      Except.ok (sampleDB.updateCredential
        { draftCred with status := CredentialStatus.issued, issued_at := some 5 },
        [BackgroundTask.sendCredentialNotification 100]) :=
  (C1_issue_requires_draft sampleDB "DCP-20240101-AAAA0000" issuerUser 5 draftCred
    rfl rfl).1 rfl

/-- C2 (counterexample): revoking the Draft credential `DCP-20240101-AAAA0000`
with an empty reason succeeds, although its status is not Issued and the
reason is not non-empty — contradicting the claim that revoke succeeds only
when the status is Issued and a non-empty reason is supplied. -/
theorem C2_counterexample :
    draftCred.status ≠ CredentialStatus.issued ∧
    revoke_credential sampleDB "DCP-20240101-AAAA0000" "" issuerUser 7 =
      Except.ok (sampleDB.updateCredential
        { draftCred with
          status := CredentialStatus.revoked
          revoked_at := some 7
          revocation_reason := some "" }) :=
  ⟨by decide, rfl⟩

/-- C2 (amended): for an authorized caller, `revoke_credential` succeeds
exactly when the current status is not Revoked — Draft included — with any
supplied reason string, empty or not; it sets status Revoked, `revoked_at`,
and stores the reason.  Revoking an already-revoked credential is rejected
with a `CredentialError`, and the transition is irreversible: a Revoked
credential can be neither re-revoked nor issued. -/
theorem C2_revoke_requires_not_revoked (db : DB) (cid reason : String)
    (user : User) (now : Nat) (c : Credential)
    (hfind : db.credentials.find? (fun x => x.credential_id == cid) = some c)
    (hacc : check_credential_access db user c.id "write" = true) :
    (c.status ≠ CredentialStatus.revoked →
      revoke_credential db cid reason user now =
        Except.ok (db.updateCredential
          { c with
            status := CredentialStatus.revoked
            revoked_at := some now
            revocation_reason := some reason })) ∧
    (c.status = CredentialStatus.revoked →
      revoke_credential db cid reason user now =
        Except.error (DCPError.credentialError "Credential is already revoked") ∧
      issue_credential db cid user now =
        Except.error (DCPError.credentialError "Only draft credentials can be issued")) := by
  constructor
  · intro hne
    unfold revoke_credential
    rw [hfind]
    simp [hacc, hne]
  · intro heq
    constructor
    · unfold revoke_credential
      rw [hfind]
      simp [hacc, heq]
    · unfold issue_credential
      rw [hfind]
      simp [hacc, heq]

/-- C2 (witness): revoking the Issued credential `DCP-20240101-BBBB0000` with
reason "policy violation" at time 7 succeeds and stores status Revoked,
`revoked_at = 7` and the reason. -/
theorem C2_revoke_requires_not_revoked_witness :
    revoke_credential sampleDB "DCP-20240101-BBBB0000" "policy violation" issuerUser 7 =
      Except.ok (sampleDB.updateCredential
        { issuedCred with
          status := CredentialStatus.revoked
          revoked_at := some 7
          revocation_reason := some "policy violation" }) :=
  (C2_revoke_requires_not_revoked sampleDB "DCP-20240101-BBBB0000" "policy violation"
    issuerUser 7 issuedCred rfl rfl).1 (by decide)

/-- C5 (counterexample): issuing the Draft credential `DCP-20240101-AAAA0000`
schedules only the recipient notification and leaves both anchor fields
(`blockchain_hash`, `blockchain_tx_hash`) at `none`: the handler never
computes the content hash and never attempts anchoring, contradicting the
claim that every Draft-to-Issued transition triggers the anchoring protocol. -/
theorem C5_counterexample :
    issue_credential sampleDB "DCP-20240101-AAAA0000" issuerUser 5 =
      Except.ok (sampleDB.updateCredential
        { draftCred with status := CredentialStatus.issued, issued_at := some 5 },
        [BackgroundTask.sendCredentialNotification 100]) ∧
    ({ draftCred with
        status := CredentialStatus.issued
        issued_at := some 5 }).blockchain_hash = none ∧
    ({ draftCred with
        status := CredentialStatus.issued
        issued_at := some 5 }).blockchain_tx_hash = none :=
  ⟨rfl, rfl, rfl⟩

/-- C5 (amended): a successful Draft-to-Issued transition does not invoke the
Integrity & Anchoring Protocol at all: it completes with status Issued and
`issued_at` set, triggers only the notification dispatch, and leaves the
content-hash and anchor-reference fields exactly as they were (in particular,
no anchor reference is produced — so a fortiori no anchoring failure can block
the transition). -/
theorem C5_issue_never_anchors (db : DB) (cid : String) (user : User) (now : Nat)
    (c : Credential)
    (hfind : db.credentials.find? (fun x => x.credential_id == cid) = some c)
    (hacc : check_credential_access db user c.id "write" = true)
    (hdraft : c.status = CredentialStatus.draft) :
    issue_credential db cid user now =
      Except.ok (db.updateCredential
        { c with status := CredentialStatus.issued, issued_at := some now },
        [BackgroundTask.sendCredentialNotification c.id]) ∧
    ({ c with
        status := CredentialStatus.issued
        issued_at := some now }).blockchain_hash = c.blockchain_hash ∧
    ({ c with
        status := CredentialStatus.issued
        issued_at := some now }).blockchain_tx_hash = c.blockchain_tx_hash ∧
    ({ c with
        status := CredentialStatus.issued
        issued_at := some now }).status = CredentialStatus.issued := by
  refine ⟨?_, rfl, rfl, rfl⟩
  unfold issue_credential
  rw [hfind]
  simp [hacc, hdraft]

/-- C5 (witness): the amended statement at the concrete Draft credential. -/
theorem C5_issue_never_anchors_witness :
    issue_credential sampleDB "DCP-20240101-AAAA0000" issuerUser 6 =
      Except.ok (sampleDB.updateCredential
        { draftCred with status := CredentialStatus.issued, issued_at := some 6 },
        [BackgroundTask.sendCredentialNotification 100]) ∧
    ({ draftCred with
        status := CredentialStatus.issued
        issued_at := some 6 }).blockchain_hash = none :=
  ⟨(C5_issue_never_anchors sampleDB "DCP-20240101-AAAA0000" issuerUser 6 draftCred
      rfl rfl rfl).1,
   rfl⟩

/-- C6 (counterexample): the credential `DCP-20240101-BBBB0000` has status
Issued, yet an update touching only the canonical content field
`credential_data` succeeds and changes it — the handler enforces no
Draft-only restriction, contradicting the claim that non-Draft updates may
change at most title, description and the public flag. -/
theorem C6_counterexample :
    issuedCred.status = CredentialStatus.issued ∧
    contentUpdateReq.title = none ∧
    contentUpdateReq.description = none ∧
    contentUpdateReq.is_public = none ∧
    update_credential sampleDB "DCP-20240101-BBBB0000" contentUpdateReq issuerUser 9 =
      Except.ok (sampleDB.updateCredential (applyUpdate issuedCred contentUpdateReq 9),
        applyUpdate issuedCred contentUpdateReq 9,
        [BackgroundTask.generateCredentialFiles 101 "design-a"]) ∧
    (applyUpdate issuedCred contentUpdateReq 9).credential_data ≠
      issuedCred.credential_data :=
  ⟨rfl, rfl, rfl, rfl, rfl, by decide⟩

/-- C6 (amended): for an authorized caller, `update_credential` applies every
provided field — `title`, `description`, `credential_data`, `expires_at`,
`is_public` — in any status, Draft or not; canonical content fields are
editable post-issuance.  The lifecycle fields (status, `issued_at`,
`revoked_at`, `revocation_reason`) are never touched by an update. -/
theorem C6_update_no_status_restriction (db : DB) (cid : String)
    (req : CredentialUpdateRequest) (user : User) (now : Nat) (c : Credential)
    (hfind : db.credentials.find? (fun x => x.credential_id == cid) = some c)
    (hacc : check_credential_access db user c.id "write" = true) :
    (∃ tasks, update_credential db cid req user now =
      Except.ok (db.updateCredential (applyUpdate c req now), applyUpdate c req now, tasks)) ∧
    (applyUpdate c req now).status = c.status ∧
    (applyUpdate c req now).issued_at = c.issued_at ∧
    (applyUpdate c req now).revoked_at = c.revoked_at ∧
    (applyUpdate c req now).revocation_reason = c.revocation_reason ∧
    (applyUpdate c req now).title = req.title.getD c.title ∧
    (applyUpdate c req now).credential_data = req.credential_data.getD c.credential_data ∧
    (applyUpdate c req now).is_public = req.is_public.getD c.is_public := by
  refine ⟨?_, rfl, rfl, rfl, rfl, rfl, rfl, rfl⟩
  unfold update_credential
  rw [hfind]
  simp only [hacc]
  exact ⟨_, rfl⟩

/-- C6 (witness): the amended statement at the concrete Issued credential,
with the content-field update applied. -/
theorem C6_update_no_status_restriction_witness :
    (∃ tasks, update_credential sampleDB "DCP-20240101-BBBB0000" contentUpdateReq issuerUser 9 =
      Except.ok (sampleDB.updateCredential (applyUpdate issuedCred contentUpdateReq 9),
        applyUpdate issuedCred contentUpdateReq 9, tasks)) ∧
    (applyUpdate issuedCred contentUpdateReq 9).status = CredentialStatus.issued :=
  have h := C6_update_no_status_restriction sampleDB "DCP-20240101-BBBB0000"
    contentUpdateReq issuerUser 9 issuedCred rfl rfl
  ⟨h.1, h.2.1.trans rfl⟩

/-- C7: when the verifier is configured (an RPC url and a contract address are
set) and the ledger lookup succeeds, `verify_credential_hash` reports
`verified = true` exactly when the stored digest equals the presented digest
under case-insensitive comparison, returns the stored digest alongside the
flag, and leaves the credential store untouched. -/
theorem C7_verify_anchor_pure (db : DB) (cfg : BlockchainConfig) (ledger : Ledger)
    (provided cid stored : String)
    (hrpc : cfg.rpc_url.isSome = true)
    (haddr : cfg.contract_address.isSome = true)
    (hlookup : ledger cid = Except.ok stored) :
    ((verify_credential_hash cfg ledger provided cid).verified = true ↔
      strLower stored = strLower provided) ∧
    (verify_credential_hash cfg ledger provided cid).stored_hash = some stored ∧
    verify_credential_hash_db db cfg ledger provided cid =
      (verify_credential_hash cfg ledger provided cid, db) := by
  obtain ⟨r, hr⟩ := Option.isSome_iff_exists.mp hrpc
  obtain ⟨a, ha⟩ := Option.isSome_iff_exists.mp haddr
  refine ⟨?_, ?_, rfl⟩ <;>
    simp [verify_credential_hash, hr, ha, hlookup]

/-- C7 (witness): against a ledger storing the uppercase digest "ABC123", the
lowercase presentation "abc123" is reported as a match and the stored digest
is returned. -/
theorem C7_verify_anchor_pure_witness :
    (verify_credential_hash demoCfg demoLedger "abc123" "DCP-20240101-BBBB0000").verified = true ∧
    (verify_credential_hash demoCfg demoLedger "abc123" "DCP-20240101-BBBB0000").stored_hash =
      some "ABC123" :=
  have h := C7_verify_anchor_pure sampleDB demoCfg demoLedger "abc123"
    "DCP-20240101-BBBB0000" "ABC123" rfl rfl rfl
  ⟨h.1.mpr (by decide), h.2.1⟩

/-- C8: the permission checks are monotonic in the SuperAdmin role — if
`check_credential_access` (or `check_organization_access`) allows an actor,
then the same check with the actor's global role changed to SUPER_ADMIN and
all other inputs unchanged also allows. -/
theorem C8_superadmin_monotone (db : DB) (user : User) (cid : Nat)
    (act : String) (oid : Nat) :
    (check_credential_access db user cid act = true →
      check_credential_access db { user with role := UserRole.super_admin } cid act = true) ∧
    (check_organization_access db user oid = true →
      check_organization_access db { user with role := UserRole.super_admin } oid = true) := by
  constructor
  · intro h
    unfold check_credential_access at h ⊢
    cases hfind : db.credentials.find? (fun c => c.id == cid) with
    | none => rw [hfind] at h; exact h
    | some c => simp
  · intro _
    unfold check_organization_access
    simp

/-- C8 (witness): the recipient may read their own credential, and so may the
same actor upgraded to SUPER_ADMIN. -/
theorem C8_superadmin_monotone_witness :
    check_credential_access sampleDB recipUser 100 "read" = true ∧
    check_credential_access sampleDB { recipUser with role := UserRole.super_admin }
      100 "read" = true :=
  ⟨rfl, (C8_superadmin_monotone sampleDB recipUser 100 "read" 1).1 rfl⟩

/-- Helper for C9: the credentials created by the bulk loop, projected to
recipient email and status, are exactly the entries carrying both required
keys, in order — entries missing a key contribute nothing. -/
theorem bulkLoop_created (req : BulkCredentialCreateRequest)
    (template : CredentialTemplate) (user : User) (uid row_id : Nat → Nat)
    (pub_id : Nat → String) :
    ∀ (l : List BulkEntry) (db : DB) (k : Nat),
      (bulkLoop req template user uid row_id pub_id db k l).2.map
          (fun c => (c.recipient_email, c.status)) =
        l.filterMap (fun e =>
          match e.recipient_email, e.recipient_name with
          | some em, some _ => some (em, CredentialStatus.draft)
          | _, _ => none) := by
  intro l
  induction l with
  | nil => intro db k; rfl
  | cons e rest ih =>
    intro db k
    cases hem : e.recipient_email with
    | none => simp [bulkLoop, hem, ih]
    | some em =>
      cases hnm : e.recipient_name with
      | none => simp [bulkLoop, hem, hnm, ih]
      | some nm => simp [bulkLoop, hem, hnm, ih]

/-- C9 (counterexample): a two-entry bulk request whose first entry lacks
`recipient_email` returns a single created credential and nothing else — the
skipped entry is silently omitted from the response, with no per-item report
of what was skipped or why, contradicting the claim. -/
theorem C9_counterexample :
    bulkReq.credentials.length = 2 ∧
    create_bulk_credentials sampleDB bulkReq issuerUser (fun k => 600 + k)
      (fun k => 700 + k) (fun _ => "DCP-20240103-EEEE0000") =
      Except.ok ({ sampleDB with credentials := sampleDB.credentials ++ [bulkCreated] },
        [bulkCreated]) :=
  ⟨rfl, rfl⟩

/-- C9 (amended): for an authorized caller and existing template, bulk create
silently skips every entry missing `recipient_email` or `recipient_name` and
creates a Draft credential for each remaining entry (partial success); the
response lists only the created credentials, with no per-item skip report. -/
theorem C9_bulk_silent_skip (db : DB) (req : BulkCredentialCreateRequest)
    (user : User) (uid row_id : Nat → Nat) (pub_id : Nat → String)
    (template : CredentialTemplate)
    (hfind : db.templates.find? (fun t => t.id == req.template_id) = some template)
    (hperm : can_issue_credentials db user template.organization_id = true) :
    ∃ db' creds,
      create_bulk_credentials db req user uid row_id pub_id = Except.ok (db', creds) ∧
      creds.map (fun c => (c.recipient_email, c.status)) =
        req.credentials.filterMap (fun e =>
          match e.recipient_email, e.recipient_name with
          | some em, some _ => some (em, CredentialStatus.draft)
          | _, _ => none) := by
  have hmain : create_bulk_credentials db req user uid row_id pub_id =
      Except.ok ((bulkLoop req template user uid row_id pub_id db 0 req.credentials).1,
                 (bulkLoop req template user uid row_id pub_id db 0 req.credentials).2) := by
    unfold create_bulk_credentials
    rw [hfind]
    simp only [hperm]
    rfl
  exact ⟨_, _, hmain, bulkLoop_created req template user uid row_id pub_id
    req.credentials db 0⟩

/-- C9 (witness): the amended statement at the concrete two-entry request —
the invalid entry contributes nothing, the valid entry yields a Draft
credential for `r@x.com`. -/
theorem C9_bulk_silent_skip_witness :
    ∃ db' creds,
      create_bulk_credentials sampleDB bulkReq issuerUser (fun k => 600 + k)
        (fun k => 700 + k) (fun _ => "DCP-20240103-EEEE0000") = Except.ok (db', creds) ∧
      creds.map (fun c => (c.recipient_email, c.status)) =
        [("r@x.com", CredentialStatus.draft)] := by
  obtain ⟨db', creds, h1, h2⟩ := C9_bulk_silent_skip sampleDB bulkReq issuerUser
    (fun k => 600 + k) (fun k => 700 + k) (fun _ => "DCP-20240103-EEEE0000")
    activeTemplate rfl rfl
  exact ⟨db', creds, h1, h2.trans rfl⟩

/-- C10: for every actor — the SuperAdmin role included — and every action,
`check_credential_access` returns `false` when no credential with the given
identifier exists: the absent-credential lookup precedes and overrides the
SuperAdmin unconditional-allow rule. -/
theorem C10_absent_credential_denied (db : DB) (user : User) (cid : Nat) (act : String)
    (h : db.credentials.find? (fun c => c.id == cid) = none) :
    check_credential_access db user cid act = false := by
  unfold check_credential_access
  rw [h]

/-- C10 (witness): even the SUPER_ADMIN user is denied on the absent
credential id 999. -/
theorem C10_absent_credential_denied_witness :
    adminUser.role = UserRole.super_admin ∧
    check_credential_access sampleDB adminUser 999 "read" = false :=
  ⟨rfl, C10_absent_credential_denied sampleDB adminUser 999 "read" rfl⟩

/-- Helper: the hex fold emits two characters per byte. -/
theorem foldr_byteHex_length (l : List Nat) :
    (l.foldr (fun b acc => byteHex b ++ acc) []).length = 2 * l.length := by
  induction l with
  | nil => rfl
  | cons b t ih =>
    rw [List.foldr_cons, List.length_append, ih,
      show (byteHex b).length = 2 from rfl, List.length_cons]
    ring

/-- Helper: a SHA-256 digest is 32 bytes. -/
theorem sha256Bytes_length (msg : List Nat) : (sha256Bytes msg).length = 32 := rfl

/-- Helper: a SHA-256 hexdigest is 64 characters. -/
theorem sha256hex_length (msg : List Nat) : (sha256hex msg).length = 64 := by
  have h : (sha256hex msg).length =
      ((sha256Bytes msg).foldr (fun b acc => byteHex b ++ acc) []).length := rfl
  rw [h, foldr_byteHex_length, sha256Bytes_length]

/-- Helper: `hexDigit` always lands in the lowercase hex alphabet. -/
theorem hexDigit_mem (n : Nat) : hexDigit n ∈ hexChars := by
  have h : n % 16 < 16 := Nat.mod_lt _ (by norm_num)
  unfold hexDigit
  set m := n % 16 with hm
  interval_cases m <;> decide

/-- Helper: every character of the hex fold is a lowercase hex digit. -/
theorem foldr_byteHex_mem (l : List Nat) :
    ∀ ch ∈ l.foldr (fun b acc => byteHex b ++ acc) [], ch ∈ hexChars := by
  induction l with
  | nil => simp
  | cons b t ih =>
    intro ch hch
    rw [List.foldr_cons, List.mem_append] at hch
    rcases hch with h | h
    · simp only [byteHex, List.mem_cons, List.not_mem_nil, or_false] at h
      rcases h with rfl | rfl
      · exact hexDigit_mem _
      · exact hexDigit_mem _
    · exact ih ch h

/-- Helper: every character of a SHA-256 hexdigest is a lowercase hex digit. -/
theorem sha256hex_mem (msg : List Nat) :
    ∀ ch ∈ (sha256hex msg).data, ch ∈ hexChars :=
  fun ch h => foldr_byteHex_mem (sha256Bytes msg) ch h

/-- Helper: in a dictionary with distinct keys, `find?` locates exactly the
pair carrying the requested key. -/
theorem find?_key_of_mem {d : JsonDict} {k : String} {v : JsonVal}
    (hnd : (d.map Prod.fst).Nodup) (hm : (k, v) ∈ d) :
    d.find? (fun p => p.1 == k) = some (k, v) := by
  induction d with
  | nil => cases hm
  | cons hd tl ih =>
    rw [List.map_cons, List.nodup_cons] at hnd
    rcases List.mem_cons.mp hm with heq | htl
    · subst heq
      simp [List.find?]
    · have hco : (hd.1 == k) = false := by
        rw [beq_eq_false_iff_ne]
        intro hkk
        apply hnd.1
        rw [hkk]
        exact List.mem_map_of_mem Prod.fst htl
      simp only [List.find?, hco]
      exact ih hnd.2 htl

/-- Helper: `find?` misses when the key is absent. -/
theorem find?_key_of_not_mem {d : JsonDict} {k : String}
    (h : k ∉ d.map Prod.fst) : d.find? (fun p => p.1 == k) = none := by
  rw [List.find?_eq_none]
  intro p hp hpk
  rw [beq_iff_eq] at hpk
  apply h
  rw [← hpk]
  exact List.mem_map_of_mem Prod.fst hp

/-- Helper: dictionary lookup is invariant under permutation of a
distinct-keyed dictionary. -/
theorem JsonDict.get_perm {d₁ d₂ : JsonDict} (hperm : d₁.Perm d₂)
    (hnd : (d₁.map Prod.fst).Nodup) (k : String) : d₁.get k = d₂.get k := by
  have hnd₂ : (d₂.map Prod.fst).Nodup := ((hperm.map Prod.fst).nodup_iff).mp hnd
  by_cases hk : k ∈ d₁.map Prod.fst
  · obtain ⟨⟨k1, v⟩, hp, hpk⟩ := List.mem_map.mp hk
    dsimp at hpk
    subst hpk
    have hm2 : (k1, v) ∈ d₂ := hperm.subset hp
    unfold JsonDict.get
    rw [find?_key_of_mem hnd hp, find?_key_of_mem hnd₂ hm2]
  · have hk₂ : k ∉ d₂.map Prod.fst := fun hmem =>
      hk (((hperm.map Prod.fst).mem_iff).mpr hmem)
    unfold JsonDict.get
    rw [find?_key_of_not_mem hk, find?_key_of_not_mem hk₂]

/-- Helper: the fixed field snapshot depends only on the dictionary's
key-value associations, not on their order. -/
theorem extractHashData_perm {d₁ d₂ : JsonDict} (hperm : d₁.Perm d₂)
    (hnd : (d₁.map Prod.fst).Nodup) :
    extractHashData d₁ = extractHashData d₂ := by
  simp only [extractHashData, JsonDict.get_perm hperm hnd]

/-- C4: `create_credential_hash` is the SHA-256 hexdigest of the canonical
serialization of exactly the fixed eight-field snapshot; the digest is 64
characters, all lowercase hex; and it is deterministic — permuting the
key-insertion order of a distinct-keyed input dictionary leaves the digest
unchanged. -/
theorem C4_hash_deterministic (d₁ d₂ : JsonDict) (hperm : d₁.Perm d₂)
    (hnd : (d₁.map Prod.fst).Nodup) :
    create_credential_hash d₁ =
      sha256hex (strBytes (serializeHashData (extractHashData d₁))) ∧
    (create_credential_hash d₁).length = 64 ∧
    (∀ ch ∈ (create_credential_hash d₁).data, ch ∈ hexChars) ∧
    create_credential_hash d₁ = create_credential_hash d₂ := by
  refine ⟨rfl, sha256hex_length _, sha256hex_mem _, ?_⟩
  unfold create_credential_hash
  rw [extractHashData_perm hperm hnd]

/-- C4 (witness): two concrete dictionaries holding the same pairs in
different orders hash identically, to a 64-character digest. -/
theorem C4_hash_deterministic_witness :
    hashDict1.Perm hashDict2 ∧
    (hashDict1.map Prod.fst).Nodup ∧
    (create_credential_hash hashDict1).length = 64 ∧
    create_credential_hash hashDict1 = create_credential_hash hashDict2 := by
  have hperm : hashDict1.Perm hashDict2 := by decide
  have hnd : (hashDict1.map Prod.fst).Nodup := by decide
  have h := C4_hash_deterministic hashDict1 hashDict2 hperm hnd
  exact ⟨hperm, hnd, h.2.1, h.2.2.2⟩

end CredentialAPI
